import Mathlib

/-!
Shallow embedding of the `spotiscreen` repository (three Python source files:
`spotiscreen.py`, `spotiscreen/main.py`, `spotiscreen/ticker.py`) together
with theorems checking the natural-language specification against it.

Conventions of the embedding:
- Pure functions become Lean functions with the source's names where possible.
- Python exceptions are modelled with `Option`/`Except`: a `none`/`.error`
  result marks the point where the Python code raises.
- Wall-clock times and the ticker interval (Python floats holding seconds)
  are modelled as rationals `ℚ`; `time.sleep d` is modelled as the clock
  advancing by exactly `d`.
- Decoded images (PIL `Image.Image` values) are opaque; they are modelled by
  a natural-number identifier.
- External collaborators (network, hardware) are modelled as explicit
  parameters (`net : String → Option ℕ` for HTTP image fetches, returning
  `none` when the fetch or decode raises) or as emitted command/event lists.
-/

namespace Spotiscreen

/-! ## Time formatting

`spotiscreen/main.py`, `seconds_to_min_secs` (lines 159-162) and
`spotiscreen.py`, `ms_to_min_secs` (lines 193-197).
-/

/-- Python's format spec `{n:02d}` for a nonnegative integer: decimal digits
zero-padded on the left to a minimum width of two. -/
def pyFormat02 (n : ℕ) : String :=
  if n < 10 then "0" ++ toString n else toString n

/-- Embedding of `seconds_to_min_secs` from `spotiscreen/main.py`:
`minutes = seconds // 60; seconds = seconds % 60; return f"{minutes}:{seconds:02d}"`.
The domain is restricted to nonnegative integers, on which Python's `//` and
`%` agree with `Nat` division and modulus. -/
def seconds_to_min_secs (seconds : ℕ) : String :=
  let minutes := seconds / 60
  let secs := seconds % 60
  toString minutes ++ ":" ++ pyFormat02 secs

/-- Embedding of `ms_to_min_secs` from `spotiscreen.py`: first converts
milliseconds to whole seconds with `seconds = ms // 1000`, then formats as
`seconds_to_min_secs` does. -/
def ms_to_min_secs (ms : ℕ) : String :=
  let seconds := ms / 1000
  let minutes := seconds / 60
  let secs := seconds % 60
  toString minutes ++ ":" ++ pyFormat02 secs

/-! ## Tickers

Three generator functions named `ticker` appear in the source:
`spotiscreen/ticker.py` lines 5-13 (the standalone Ticker), and two
textually identical inline variants, `spotiscreen.py` lines 200-209 and
`spotiscreen/main.py` lines 165-174.

A generator is modelled by its per-request step function: given the interval
`I`, the saved deadline `next_tick`, and the wall-clock time `now` at which
the caller requests the next signal, it returns the wall-clock time at which
the generator yields and the new saved deadline.  `time.sleep d` advances
the clock by exactly `d`.
-/

/-- Embedding of `ticker` from `spotiscreen/ticker.py`.  Body per request:
`now = time.time(); if now >= next_tick: next_tick = max(next_tick + interval, now + interval); yield`
and otherwise `time.sleep(next_tick - now)` followed by re-running the loop
body, which then reads the clock at `next_tick`, satisfies the comparison,
and yields.  The re-run is inlined here: in the sleep branch the yield
happens at time `next_tick` with the deadline advanced from `next_tick`. -/
def ticker_step (I next_tick now : ℚ) : ℚ × ℚ :=
  if next_tick ≤ now then
    (now, max (next_tick + I) (now + I))
  else
    (next_tick, max (next_tick + I) (next_tick + I))

/-- Embedding of the inline `ticker` from `spotiscreen.py` (lines 200-209).
Code between two yields: `now = time.time(); if now > next_tick: next_tick = now + interval`
(then the loop yields immediately at `now`); otherwise
`time.sleep(next_tick - now); next_tick += interval` (the loop yields at the
old deadline). -/
def ticker_step_spotiscreen (I next_tick now : ℚ) : ℚ × ℚ :=
  if next_tick < now then
    (now, now + I)
  else
    (next_tick, next_tick + I)

/-- Embedding of the inline `ticker` from `spotiscreen/main.py` (lines
165-174), textually identical to the one in `spotiscreen.py`. -/
def ticker_step_main (I next_tick now : ℚ) : ℚ × ℚ :=
  if next_tick < now then
    (now, now + I)
  else
    (next_tick, next_tick + I)

/-- First request of the standalone ticker: the generator body starts
running at the first `next(...)`, so `next_tick = time.time()` is the
request time itself, and the loop body then runs once. -/
def ticker_first (I t : ℚ) : ℚ × ℚ :=
  ticker_step I t t

/-- First request of an inline ticker: `next_tick = time.time() + interval`
is computed and the generator yields immediately at the request time. -/
def ticker_inline_first (I t : ℚ) : ℚ × ℚ :=
  (t, t + I)

/-- Run a ticker step function over a list of request times, threading the
saved deadline; returns the list of yield times. -/
def ticker_run (step : ℚ → ℚ → ℚ → ℚ × ℚ) (I : ℚ) : ℚ → List ℚ → List ℚ
  | _, [] => []
  | s, t :: ts =>
    let p := step I s t
    p.1 :: ticker_run step I p.2 ts

/-- Full yield history of the standalone ticker (`spotiscreen/ticker.py`):
first request at `t₀`, then requests at the given times. -/
def ticker_history (I t₀ : ℚ) (ts : List ℚ) : List ℚ :=
  let p := ticker_first I t₀
  p.1 :: ticker_run ticker_step I p.2 ts

/-- Full yield history of the inline ticker from `spotiscreen.py`. -/
def ticker_history_spotiscreen (I t₀ : ℚ) (ts : List ℚ) : List ℚ :=
  let p := ticker_inline_first I t₀
  p.1 :: ticker_run ticker_step_spotiscreen I p.2 ts

/-- Full yield history of the inline ticker from `spotiscreen/main.py`. -/
def ticker_history_main (I t₀ : ℚ) (ts : List ℚ) : List ℚ :=
  let p := ticker_inline_first I t₀
  p.1 :: ticker_run ticker_step_main I p.2 ts

/-! ## Configuration

`spotiscreen.py`, `class Config` (the `spotiscreen/main.py` copy is
identical).  Only the dataclass fields and defaults are modelled; file
loading and saving are I/O against the config file and are outside the
claims under check.
-/

/-- Embedding of the `Config` dataclass with its field defaults. -/
structure Config where
  client_id : String := ""
  redirect_uri : String := ""
  font : String := "DejaVuSans.ttf"
  brightness : ℕ := 25
  simulated : Bool := false
deriving DecidableEq

/-! ## Image download with LRU cache

`spotiscreen.py`, `download_image` (lines 149-153), decorated with
`@lru_cache(maxsize=32)`.  The cache behaviour modelled is that of
`functools.lru_cache`: a hit returns the stored value and marks the entry
most recently used; a miss calls the wrapped function and, if it returns
normally, stores the result, evicting the least recently used entry when
the cache already holds `maxsize` entries; if the wrapped function raises,
nothing is stored and the exception propagates.

The cache is a list of `(url, imageId)` pairs, most recently used first.
The network and image decode are the oracle `net : String → Option ℕ`;
`net url = none` models `requests.get`/`raise_for_status`/`Image.open`
raising.
-/

/-- Image cache state: `(url, imageId)` pairs, most recently used first. -/
abbrev Lru := List (String × ℕ)

/-- Look a URL up in the cache. -/
def lruLookup (c : Lru) (url : String) : Option ℕ :=
  (c.find? (fun p => p.1 = url)).map (fun p => p.2)

/-- Mark a cached URL most recently used (move its entry to the front). -/
def lruTouch (c : Lru) (url : String) : Lru :=
  match c.find? (fun p => p.1 = url) with
  | some entry => entry :: c.filter (fun p => ¬ p.1 = url)
  | none => c

/-- Insert a freshly fetched value as most recently used, evicting beyond
the `maxsize=32` bound. -/
def lruInsert (c : Lru) (url : String) (v : ℕ) : Lru :=
  ((url, v) :: c).take 32

/-- Embedding of the `lru_cache`-wrapped `download_image`.  Returns the
result (`none` when the fetch raised), the cache after the call, and the
number of network fetches issued by the call (0 on a cache hit, 1
otherwise). -/
def download_image (net : String → Option ℕ) (c : Lru) (url : String) :
    Option ℕ × Lru × ℕ :=
  match lruLookup c url with
  | some v => (some v, lruTouch c url, 0)
  | none =>
    match net url with
    | some v => (some v, lruInsert c url v, 1)
    | none => (none, c, 1)

/-! ## Playback snapshot

`spotiscreen.py`, `NowPlayingState` (lines 156-190).  The raw API response
is modelled as a structure holding exactly the fields
`from_api_response` reads from the nested dictionaries; the claims under
check only concern well-formed responses.
-/

/-- Fields of the playback-status API response that
`NowPlayingState.from_api_response` reads. -/
structure ApiResponse where
  artists0_name : String
  item_name : String
  album_name : String
  images0_url : String
  progress_ms : ℕ
  duration_ms : ℕ
  track_number : ℕ
  total_tracks : ℕ
deriving DecidableEq

/-- Embedding of the `NowPlayingState` dataclass from `spotiscreen.py`
(millisecond fields; the `spotiscreen/main.py` copy divides by 1000 into
float second fields). -/
structure NowPlayingState where
  artist : String
  track_name : String
  album : String
  album_art_url : String
  album_art_img : Option ℕ
  progress_ms : ℕ
  duration_ms : ℕ
  track_number : ℕ
  total_tracks : ℕ
deriving DecidableEq

/-- Embedding of `NowPlayingState.from_api_response`: extracts the metadata
fields and resolves the album-art URL through `download_image`, with the
surrounding `try/except` turning a raised fetch error into
`album_art_img = None` (logged, not propagated).  Returns the snapshot and
the cache after the call. -/
def NowPlayingState.from_api_response (net : String → Option ℕ) (cache : Lru)
    (resp : ApiResponse) : NowPlayingState × Lru :=
  let url := resp.images0_url
  let d := download_image net cache url
  ({ artist := resp.artists0_name
     track_name := resp.item_name
     album := resp.album_name
     album_art_url := url
     album_art_img := d.1
     progress_ms := resp.progress_ms
     duration_ms := resp.duration_ms
     track_number := resp.track_number
     total_tracks := resp.total_tracks }, d.2.1)

/-- Embedding of `NowPlayingState.progress_percent`:
`self.progress_ms / self.duration_ms * 100`.  Python raises
`ZeroDivisionError` when `duration_ms` is `0`; the raise is modelled by
`none`. -/
def NowPlayingState.progress_percent (s : NowPlayingState) : Option ℚ :=
  if s.duration_ms = 0 then none
  else some ((s.progress_ms : ℚ) / (s.duration_ms : ℚ) * 100)

/-! ## Scene builder

`spotiscreen.py`, `build_scene` (lines 212-285).  The `pidili` widget
library is external: widgets are modelled structurally, and the rendered
height of a wrapped `Text` widget (its `.height` attribute, computed by
the library's layout engine from the text, font, font size and max width)
is an oracle `th : TextW → ℕ` passed to `build_scene`.
-/

/-- Constructor arguments of a `pidili.widgets.Text`. -/
structure TextW where
  text : String
  color : ℕ × ℕ × ℕ
  font : String
  font_size : ℕ
  max_width : Option ℕ := none
  anchor : Option String := none
deriving DecidableEq

/-- Widget nodes used by `build_scene`: `Rect`, `Img`, `ProgressBar`,
`Text`. -/
inductive Node where
  | rect (size : ℕ × ℕ) (fill : ℕ × ℕ × ℕ)
  | img (size : ℕ × ℕ) (imageId : ℕ) (key : String)
  | progressBar (size : ℕ × ℕ) (percent : ℚ) (fill : ℕ × ℕ × ℕ)
  | text (t : TextW)
deriving DecidableEq

/-- A scene: a root widget with positioned children in insertion order,
as produced by repeated `scene.add((x, y), widget)` calls. -/
structure Scene where
  root : Node
  children : List ((ℤ × ℤ) × Node)
deriving DecidableEq

/-- Embedding of `Widget.add`: appends a positioned child. -/
def Scene.add (sc : Scene) (pos : ℤ × ℤ) (n : Node) : Scene :=
  { sc with children := sc.children ++ [(pos, n)] }

/-- The `Text` widget built for the album line in `build_scene`:
`Text(state.album, color=(200, 200, 200), font=cfg.font, font_size=16, max_width=215)`. -/
def albumTextW (cfg : Config) (st : NowPlayingState) : TextW :=
  { text := st.album, color := (200, 200, 200), font := cfg.font,
    font_size := 16, max_width := some 215 }

/-- The `Text` widget built for the artist line in `build_scene`. -/
def artistTextW (cfg : Config) (st : NowPlayingState) : TextW :=
  { text := st.artist, color := (255, 255, 255), font := cfg.font,
    font_size := 24, max_width := some 215 }

/-- Embedding of `build_scene` from `spotiscreen.py`.  Follows the source
statement by statement; `state.progress_percent()` is evaluated where the
`ProgressBar` is constructed, and its `ZeroDivisionError` (modelled by
`none`) propagates out of `build_scene`.  `int(...)` applied to the integer
millisecond fields is the identity. -/
def build_scene (th : TextW → ℕ) (cfg : Config) (size : ℕ × ℕ)
    (state : NowPlayingState) : Option Scene :=
  let scene : Scene := { root := Node.rect size (0, 0, 0), children := [] }
  let scene := match state.album_art_img with
    | some imageId => scene.add (0, 0) (Node.img (255, 255) imageId state.album_art_url)
    | none => scene
  match state.progress_percent with
  | none => none
  | some pct =>
    let scene := scene.add (0, 270) (Node.progressBar (480, 5) pct (64, 64, 64))
    let scene := scene.add (5, 290) (Node.text
      { text := ms_to_min_secs state.progress_ms, color := (200, 200, 200),
        font := cfg.font, font_size := 20 })
    let scene := scene.add (475, 290) (Node.text
      { text := ms_to_min_secs state.duration_ms, color := (200, 200, 200),
        font := cfg.font, font_size := 20, anchor := some "ra" })
    let scene := scene.add (240, 290) (Node.text
      { text := toString state.track_number ++ " / " ++ toString state.total_tracks,
        color := (200, 200, 200), font := cfg.font, font_size := 20,
        anchor := some "ma" })
    let album := albumTextW cfg state
    let scene := scene.add (265, 2) (Node.text album)
    let scene := scene.add (265, (th album : ℤ) + 20) (Node.text (artistTextW cfg state))
    let scene := scene.add (265, 255) (Node.text
      { text := state.track_name, color := (255, 255, 255), font := cfg.font,
        font_size := 20, max_width := some 215, anchor := some "ld" })
    some scene

/-- Vertical position of the artist label in a built scene: the artist is
the second-to-last child added by `build_scene`. -/
def artistY (sc : Scene) : ℤ :=
  match sc.children.reverse.get? 1 with
  | some ((_, y), _) => y
  | none => 0

/-! ## Display controller

`spotiscreen.py`, `class Screen` (lines 109-146).  The hardware transport
(`lcd`) and the paint engine (`pdl`) are external; calls into them are
recorded as emitted hardware commands.  `pdl.reset()` clears the paint
engine's retained scene; `pdl.update(scene)` repaints and retains `scene`.
Construction (reset, comm handshake, brightness, orientation) establishes
the powered-on state.
-/

/-- Hardware commands the `Screen` methods issue to the LCD. -/
inductive HwCmd where
  | screen_off
  | screen_on
  | clear
  | paint
deriving DecidableEq

/-- Display controller state: the `is_on` power flag and the paint
engine's retained scene. -/
structure Screen where
  is_on : Bool
  pdl_scene : Option Scene
deriving DecidableEq

/-- State established by `Screen.__init__`. -/
def Screen.init : Screen :=
  { is_on := true, pdl_scene := none }

/-- Embedding of `Screen.off`: early-return when already off; otherwise
`pdl.reset(); lcd.screen_off(); lcd.clear(); is_on = False`. -/
def Screen.off (s : Screen) : Screen × List HwCmd :=
  if s.is_on = false then (s, [])
  else ({ is_on := false, pdl_scene := none }, [HwCmd.screen_off, HwCmd.clear])

/-- Embedding of `Screen.on`: early-return when already on; otherwise
`lcd.screen_on(); is_on = True`. -/
def Screen.on (s : Screen) : Screen × List HwCmd :=
  if s.is_on = true then (s, [])
  else ({ s with is_on := true }, [HwCmd.screen_on])

/-- Embedding of `Screen.update`: `pdl.update(scene)` repaints (one paint
pass against the retained scene) and retains the new scene. -/
def Screen.update (s : Screen) (scene : Scene) : Screen × List HwCmd :=
  ({ s with pdl_scene := some scene }, [HwCmd.paint])

/-- Operations clients may invoke on a `Screen`. -/
inductive ScreenOp where
  | off
  | on
  | update (scene : Scene)
deriving DecidableEq

/-- Dispatch one operation. -/
def Screen.step (s : Screen) : ScreenOp → Screen × List HwCmd
  | ScreenOp.off => s.off
  | ScreenOp.on => s.on
  | ScreenOp.update sc => s.update sc

/-- Run a sequence of operations, concatenating the emitted hardware
commands. -/
def Screen.runOps (s : Screen) : List ScreenOp → Screen × List HwCmd
  | [] => (s, [])
  | op :: rest =>
    let p := s.step op
    let q := p.1.runOps rest
    (q.1, p.2 ++ q.2)

/-- Power state recorded by a command stream: the effect of the last
`screen_on`/`screen_off` command, starting from `b`. -/
def powerFold (cmds : List HwCmd) (b : Bool) : Bool :=
  cmds.foldl (fun acc c =>
    match c with
    | HwCmd.screen_on => true
    | HwCmd.screen_off => false
    | _ => acc) b

/-! ## Run loop

`spotiscreen.py`, `run` (lines 288-329); `spotiscreen/main.py`, `run`, is
structurally identical (it differs only in using `print` instead of the
logger).  The loop is driven by external inputs: each iteration of the
inner `for _ in ticker(1)` loop consumes a `Tick` describing what the
outside world does during that iteration (signal deliveries flipping the
`running` flag, and the outcome of `spot.current_playback()` and of the
loop body), and each iteration of the outer `while running` loop consumes
an `Attempt`.  Observable actions are recorded as `Event`s.
-/

/-- Observable actions of the run loop. -/
inductive Event where
  | construct
  | query
  | offCall
  | onCall
  | updateCall
  | sleepSec (n : ℕ)
  | logError (e : String)
  | logRetry
  | logShutdown
deriving DecidableEq

/-- Outcome of one inner-loop body, as determined by the collaborators:
`idle` (`current_playback()` returns `None`), `playing resp` (it returns a
payload and the rest of the body runs normally), `queryRaise e` (the query
raises `e`), or `paintRaise resp e` (the body runs up to and including the
`screen.update(scene)` call, which raises `e`). -/
inductive TickOutcome where
  | idle
  | playing (resp : ApiResponse)
  | queryRaise (e : String)
  | paintRaise (resp : ApiResponse) (e : String)
deriving DecidableEq

/-- One inner-loop iteration's external inputs: whether a shutdown signal
arrived before the `if not running` check, the body outcome, and whether a
signal arrived during the body (after the check, before the exception, if
any, reaches the outer handler). -/
structure Tick where
  sigBefore : Bool
  out : TickOutcome
  sigDuring : Bool
deriving DecidableEq

/-- One outer-loop iteration's external inputs: if `ctorFail = some e`
then `Screen(cfg)` raises `e` (and the `screen` variable keeps its previous
value); otherwise construction succeeds and the inner loop consumes
`ticks`. -/
structure Attempt where
  ctorFail : Option String
  ticks : List Tick
deriving DecidableEq

/-- Result of one inner-loop body: the screen and image cache as mutated
by the body (mutations persist even when the body then raises, since both
are long-lived Python objects), the events, and the raised exception
message if any. -/
structure TickResult where
  screen : Screen
  cache : Lru
  events : List Event
  raised : Option String
deriving DecidableEq

/-- Result of the inner `for` loop. -/
structure TicksResult where
  events : List Event
  screen : Screen
  cache : Lru
  running : Bool
  raised : Option String
deriving DecidableEq

/-- Result of the outer `while` loop: the events, the final value of the
`screen` variable, and the final `running` flag. -/
structure LoopResult where
  events : List Event
  screen : Option Screen
  running : Bool
deriving DecidableEq

/-- Embedding of the inner-loop body after the `running` check, from
`current_playback()` onwards.  A `duration_ms` of zero makes
`state.progress_percent()` raise `ZeroDivisionError` inside `build_scene`,
before `screen.update` is reached. -/
def tickBody (th : TextW → ℕ) (cfg : Config) (net : String → Option ℕ)
    (sz : ℕ × ℕ) (screen : Screen) (cache : Lru) : TickOutcome → TickResult
  | TickOutcome.idle =>
    { screen := (screen.off).1, cache := cache,
      events := [Event.query, Event.offCall, Event.sleepSec 5], raised := none }
  | TickOutcome.playing resp =>
    let s1 := (screen.on).1
    let p := NowPlayingState.from_api_response net cache resp
    match build_scene th cfg sz p.1 with
    | none =>
      { screen := s1, cache := p.2, events := [Event.query, Event.onCall],
        raised := some "ZeroDivisionError" }
    | some scene =>
      { screen := (s1.update scene).1, cache := p.2,
        events := [Event.query, Event.onCall, Event.updateCall], raised := none }
  | TickOutcome.queryRaise e =>
    { screen := screen, cache := cache, events := [Event.query], raised := some e }
  | TickOutcome.paintRaise resp e =>
    let s1 := (screen.on).1
    let p := NowPlayingState.from_api_response net cache resp
    match build_scene th cfg sz p.1 with
    | none =>
      { screen := s1, cache := p.2, events := [Event.query, Event.onCall],
        raised := some "ZeroDivisionError" }
    | some scene =>
      { screen := (s1.update scene).1, cache := p.2,
        events := [Event.query, Event.onCall, Event.updateCall], raised := some e }

/-- Embedding of the inner `for _ in ticker(1)` loop.  Threads the
`running` flag and stops on `break` (flag cleared at the check) or on a
raised exception; when the supplied tick list is exhausted the loop is
still running (the model's fuel ran out). -/
def runTicks (th : TextW → ℕ) (cfg : Config) (net : String → Option ℕ)
    (sz : ℕ × ℕ) : Bool → Screen → Lru → List Tick → TicksResult
  | running, screen, cache, [] =>
    { events := [], screen := screen, cache := cache, running := running, raised := none }
  | running, screen, cache, t :: rest =>
    let r1 := running && !t.sigBefore
    if r1 = false then
      { events := [], screen := screen, cache := cache, running := false, raised := none }
    else
      let b := tickBody th cfg net sz screen cache t.out
      let r2 := r1 && !t.sigDuring
      match b.raised with
      | some e =>
        { events := b.events, screen := b.screen, cache := b.cache,
          running := r2, raised := some e }
      | none =>
        let rec2 := runTicks th cfg net sz r2 b.screen b.cache rest
        { rec2 with events := b.events ++ rec2.events }

/-- Embedding of the outer `while running` loop.  Each attempt begins with
`screen = Screen(cfg)`; an exception from construction or from the inner
loop reaches the handler, which logs the error, logs the retry notice, and
sleeps 5 seconds only if `running` is still set; the loop then re-tests
`running`. -/
def runAttempts (th : TextW → ℕ) (cfg : Config) (net : String → Option ℕ)
    (sz : ℕ × ℕ) : Bool → Option Screen → Lru → List Attempt → LoopResult
  | running, scr, _, [] => { events := [], screen := scr, running := running }
  | running, scr, cache, a :: rest =>
    if running = false then { events := [], screen := scr, running := false }
    else
      match a.ctorFail with
      | some e =>
        -- `Screen(cfg)` raised before assignment: `screen` keeps its value.
        let handler := [Event.construct, Event.logError e, Event.logRetry, Event.sleepSec 5]
        let rec2 := runAttempts th cfg net sz true scr cache rest
        { rec2 with events := handler ++ rec2.events }
      | none =>
        let inner := runTicks th cfg net sz true Screen.init cache a.ticks
        match inner.raised with
        | none =>
          -- The inner loop ended without an exception: either `break`
          -- (flag cleared, the `while` then exits) or fuel ran out.
          { events := Event.construct :: inner.events, screen := some inner.screen,
            running := inner.running }
        | some e =>
          let handler := [Event.logError e, Event.logRetry] ++
            (if inner.running then [Event.sleepSec 5] else [])
          let rec2 := runAttempts th cfg net sz inner.running (some inner.screen)
            inner.cache rest
          { rec2 with events := Event.construct :: inner.events ++ handler ++ rec2.events }

/-- Embedding of `run` as a whole: the retry loop followed by the cleanup
(`if screen: screen.off()` and the shutdown log line). -/
def run (th : TextW → ℕ) (cfg : Config) (net : String → Option ℕ)
    (sz : ℕ × ℕ) (cache : Lru) (attempts : List Attempt) : List Event :=
  let r := runAttempts th cfg net sz true none cache attempts
  r.events ++ (match r.screen with
               | some _ => [Event.offCall]
               | none => []) ++ [Event.logShutdown]

/-- Schedule of one outer-loop attempt whose first inner iteration's
playback query raises `e`, with no signals delivered. -/
def queryFailAttempt (e : String) : Attempt :=
  { ctorFail := none,
    ticks := [{ sigBefore := false, out := TickOutcome.queryRaise e, sigDuring := false }] }

/-! ## Sample inputs for concrete evaluations -/

/-- Sample text-height oracle: the album line (font size 16) wraps to
height 35, everything else renders at height 24. -/
def sampleTh : TextW → ℕ := fun t => if t.font_size = 16 then 35 else 24

/-- Sample network oracle: the URL "art" resolves to image 7, every other
fetch fails. -/
def sampleNet : String → Option ℕ := fun u => if u = "art" then some 7 else none

/-- Sample well-formed playback response with nonzero duration. -/
def sampleResp : ApiResponse :=
  { artists0_name := "Artist", item_name := "Track", album_name := "Album",
    images0_url := "art", progress_ms := 30000, duration_ms := 120000,
    track_number := 3, total_tracks := 11 }

/-- Sample playback response whose duration is zero. -/
def sampleRespZero : ApiResponse :=
  { artists0_name := "Artist", item_name := "Track", album_name := "Album",
    images0_url := "art", progress_ms := 30000, duration_ms := 0,
    track_number := 3, total_tracks := 11 }

/-! ## Helper lemmas -/

/-- Closed form of the standalone ticker step: the `max` in the yield
branch resolves to `now + I`, and the sleep branch advances the deadline by
`I`. -/
theorem ticker_step_closed (I s now : ℚ) :
    ticker_step I s now = if s ≤ now then (now, now + I) else (s, s + I) := by
  unfold ticker_step
  split_ifs with h
  · rw [max_eq_right (by linarith)]
  · rw [max_self]

/-- The standalone and inline ticker steps agree on every state and
request time. -/
theorem ticker_step_eq_inline (I s now : ℚ) :
    ticker_step I s now = ticker_step_spotiscreen I s now := by
  rw [ticker_step_closed]
  unfold ticker_step_spotiscreen
  rcases lt_trichotomy s now with h | h | h
  · rw [if_pos h.le, if_pos h]
  · subst h
    rw [if_pos le_rfl, if_neg (lt_irrefl s)]
  · rw [if_neg (not_le.mpr h), if_neg (not_lt.mpr h.le)]

/-- Two step functions that agree pointwise produce the same yield
sequence on every request history. -/
theorem ticker_run_congr (f g : ℚ → ℚ → ℚ → ℚ × ℚ)
    (h : ∀ I s now, f I s now = g I s now) (I : ℚ) (ts : List ℚ) :
    ∀ s, ticker_run f I s ts = ticker_run g I s ts := by
  induction ts with
  | nil => intro s; rfl
  | cons t ts ih =>
    intro s
    simp only [ticker_run, h, ih]

/-- The standalone ticker's first request yields immediately with the
deadline re-anchored to `t + I`, like the inline tickers'. -/
theorem ticker_first_eq (I t : ℚ) : ticker_first I t = (t, t + I) := by
  unfold ticker_first
  rw [ticker_step_closed, if_pos le_rfl]

/-! ## Claim C1 -/

/-- C1: the standalone Ticker (`spotiscreen/ticker.py`), for every interval
`I > 0`: on each request, if the current time is at or past `next_tick` it
advances `next_tick` to `max(next_tick + I, now + I)` (which re-anchors the
cadence to `now + I`) and yields immediately at `now`; otherwise it blocks
until `next_tick` and then yields there with the deadline advanced by `I`;
and consequently the yield of any next request is at least `I` after the
current one, wherever the next request time `now'` falls. -/
theorem C1_ticker_contract (I : ℚ) (_hI : 0 < I) (s now now' : ℚ) :
    (s ≤ now →
      ticker_step I s now = (now, max (s + I) (now + I)) ∧
      ticker_step I s now = (now, now + I)) ∧
    (now < s → ticker_step I s now = (s, s + I)) ∧
    I ≤ (ticker_step I (ticker_step I s now).2 now').1 - (ticker_step I s now).1 := by
  refine ⟨?_, ?_, ?_⟩
  · intro h
    refine ⟨?_, ?_⟩
    · unfold ticker_step
      rw [if_pos h]
    · rw [ticker_step_closed, if_pos h]
  · intro h
    rw [ticker_step_closed, if_neg (not_le.mpr h)]
  · simp only [ticker_step_closed]
    rcases le_or_lt s now with h | h
    · rw [if_pos h]
      dsimp only
      rcases le_or_lt (now + I) now' with h' | h'
      · rw [if_pos h']
        dsimp only
        linarith
      · rw [if_neg (not_le.mpr h')]
        dsimp only
        linarith
    · rw [if_neg (not_le.mpr h)]
      dsimp only
      rcases le_or_lt (s + I) now' with h' | h'
      · rw [if_pos h']
        dsimp only
        linarith
      · rw [if_neg (not_le.mpr h')]
        dsimp only
        linarith

/-- Witness for C1 at `I = 1`, `next_tick = 0`, `now = 2`, `now' = 3`. -/
theorem C1_ticker_contract_witness :
    (0 : ℚ) < 1 ∧
    (((0 : ℚ) ≤ 2 →
       ticker_step 1 0 2 = (2, max (0 + 1) (2 + 1)) ∧
       ticker_step 1 0 2 = (2, 2 + 1)) ∧
     ((2 : ℚ) < 0 → ticker_step 1 0 2 = (0, 0 + 1)) ∧
     1 ≤ (ticker_step 1 (ticker_step 1 0 2).2 3).1 - (ticker_step 1 0 2).1) :=
  ⟨by norm_num, C1_ticker_contract 1 (by norm_num) 0 2 3⟩

/-! ## Claim C8 -/

/-- C8: the standalone ticker generator (`spotiscreen/ticker.py`) and the
inline ticker generators of the two run-loop variants (`spotiscreen.py`,
`spotiscreen/main.py`) are behaviourally equivalent: for every interval,
creation time and request history they yield at the same wall-clock times
(their per-request step functions and first-request behaviour agree on all
inputs). -/
theorem C8_ticker_variants_equivalent (I t₀ s now : ℚ) (ts : List ℚ) :
    ticker_history I t₀ ts = ticker_history_spotiscreen I t₀ ts ∧
    ticker_history_spotiscreen I t₀ ts = ticker_history_main I t₀ ts ∧
    ticker_step I s now = ticker_step_spotiscreen I s now ∧
    ticker_step_spotiscreen I s now = ticker_step_main I s now ∧
    ticker_first I t₀ = ticker_inline_first I t₀ := by
  refine ⟨?_, ?_, ticker_step_eq_inline I s now, rfl, ?_⟩
  · unfold ticker_history ticker_history_spotiscreen
    rw [ticker_first_eq]
    dsimp only [ticker_inline_first]
    rw [ticker_run_congr ticker_step ticker_step_spotiscreen ticker_step_eq_inline]
  · unfold ticker_history_spotiscreen ticker_history_main
    dsimp only [ticker_inline_first]
    rw [ticker_run_congr ticker_step_spotiscreen ticker_step_main (fun _ _ _ => rfl)]
  · rw [ticker_first_eq]
    rfl

/-! ## Claim C5 -/

/-- C5: the time formatter maps a nonnegative integer seconds count `n` to
`(n div 60):(n mod 60)` with the seconds part zero-padded to two digits and
the minutes part rendered plainly (unbounded, not zero-padded); the
examples of the specification hold; and the `ms_to_min_secs` variant of
`spotiscreen.py` agrees after its milliseconds-to-seconds conversion. -/
theorem C5_time_format (n : ℕ) :
    seconds_to_min_secs n = toString (n / 60) ++ ":" ++ pyFormat02 (n % 60) ∧
    (pyFormat02 (n % 60)).length = 2 ∧
    ms_to_min_secs (1000 * n) = seconds_to_min_secs n ∧
    seconds_to_min_secs 0 = "0:00" ∧
    seconds_to_min_secs 59 = "0:59" ∧
    seconds_to_min_secs 60 = "1:00" ∧
    seconds_to_min_secs 3661 = "61:01" := by
  refine ⟨rfl, ?_, ?_, rfl, rfl, rfl, rfl⟩
  · have h : n % 60 < 60 := Nat.mod_lt _ (by norm_num)
    exact (by decide : ∀ t, t < 60 → (pyFormat02 t).length = 2) _ h
  · simp only [ms_to_min_secs, seconds_to_min_secs]
    rw [Nat.mul_div_cancel_left n (by norm_num : 0 < 1000)]

/-! ## Claim C9 -/

/-- Folding a concatenated command stream folds the pieces in order. -/
theorem powerFold_append (l1 l2 : List HwCmd) (b : Bool) :
    powerFold (l1 ++ l2) b = powerFold l2 (powerFold l1 b) := by
  unfold powerFold
  rw [List.foldl_append]

/-- One `Screen` operation keeps `is_on` in step with the power commands it
emits. -/
theorem screen_step_power (s : Screen) (op : ScreenOp) :
    (s.step op).1.is_on = powerFold (s.step op).2 s.is_on := by
  rcases s with ⟨b, p⟩
  cases op <;> cases b <;>
    simp [Screen.step, Screen.off, Screen.on, Screen.update, powerFold]

/-- Over any operation sequence, `is_on` equals the effect of the last
power command emitted (starting from the screen's initial flag). -/
theorem screen_runOps_power (ops : List ScreenOp) :
    ∀ s : Screen, (s.runOps ops).1.is_on = powerFold (s.runOps ops).2 s.is_on := by
  induction ops with
  | nil => intro s; rfl
  | cons op rest ih =>
    intro s
    show ((s.step op).1.runOps rest).1.is_on =
      powerFold ((s.step op).2 ++ ((s.step op).1.runOps rest).2) s.is_on
    rw [powerFold_append, ← screen_step_power, ih]

/-- C9: `Screen.update` changes no component of the display state other
than the retained scene — in particular `is_on` is unchanged and no power
command is emitted; `off()` and `on()` are no-ops in their target states
and otherwise toggle `is_on`; and over every operation sequence from a
freshly constructed screen, `is_on` equals the effect of the last power
command issued to the hardware (`true` when none was issued). -/
theorem C9_update_frame (s : Screen) (sc : Scene) (p : Option Scene)
    (ops : List ScreenOp) :
    s.update sc = ({ is_on := s.is_on, pdl_scene := some sc }, [HwCmd.paint]) ∧
    (s.update sc).1.is_on = s.is_on ∧
    Screen.off { is_on := false, pdl_scene := p } = ({ is_on := false, pdl_scene := p }, []) ∧
    Screen.on { is_on := true, pdl_scene := p } = ({ is_on := true, pdl_scene := p }, []) ∧
    (Screen.off { is_on := true, pdl_scene := p }).1.is_on = false ∧
    (Screen.on { is_on := false, pdl_scene := p }).1.is_on = true ∧
    (Screen.runOps Screen.init ops).1.is_on =
      powerFold (Screen.runOps Screen.init ops).2 true := by
  exact ⟨rfl, rfl, rfl, rfl, rfl, rfl, screen_runOps_power ops Screen.init⟩

/-! ## Claim C6 -/

/-- A snapshot with `duration_ms = 0` makes `build_scene` raise (the
`ZeroDivisionError` from `progress_percent` propagates). -/
theorem build_scene_zero_duration (th : TextW → ℕ) (cfg : Config)
    (sz : ℕ × ℕ) (st : NowPlayingState) (h : st.duration_ms = 0) :
    build_scene th cfg sz st = none := by
  cases himg : st.album_art_img <;>
    simp [build_scene, NowPlayingState.progress_percent, h, himg]

/-- C6 counterexample: the claim says a total duration of 0 is treated as
a defensive error rather than used as a divisor, but at this concrete
snapshot `progress_percent` reaches `progress_ms / duration_ms` with
divisor 0 and raises `ZeroDivisionError` (the `none` branch of the
embedding): there is no defensive treatment. -/
theorem C6_duration_zero_counterexample :
    NowPlayingState.progress_percent
      { artist := "a", track_name := "t", album := "b", album_art_url := "u",
        album_art_img := none, progress_ms := 30000, duration_ms := 0,
        track_number := 1, total_tracks := 10 } = none := rfl

/-- C6 (amended): `progress_percent` computes `progress / duration * 100`
with no guard; a snapshot with total duration 0 reaches the division and
raises `ZeroDivisionError`, which propagates out of `build_scene` (to be
absorbed only by the run loop's generic retry); for every nonzero duration
the quotient is computed, e.g. giving 25 for the specification's
30000 ms / 120000 ms example. -/
theorem C6_progress_percent_unguarded (th : TextW → ℕ) (cfg : Config)
    (sz : ℕ × ℕ) (s s' : NowPlayingState)
    (h : s.duration_ms = 0) (h' : s'.duration_ms ≠ 0) :
    s.progress_percent = none ∧
    build_scene th cfg sz s = none ∧
    s'.progress_percent = some ((s'.progress_ms : ℚ) / (s'.duration_ms : ℚ) * 100) ∧
    (∀ r : NowPlayingState, r.progress_ms = 30000 → r.duration_ms = 120000 →
      r.progress_percent = some 25) := by
  refine ⟨?_, build_scene_zero_duration th cfg sz s h, ?_, ?_⟩
  · unfold NowPlayingState.progress_percent
    rw [if_pos h]
  · unfold NowPlayingState.progress_percent
    rw [if_neg h']
  · intro r hp hd
    unfold NowPlayingState.progress_percent
    rw [if_neg (by rw [hd]; norm_num), hp, hd]
    norm_num

/-- Witness for C6's amended theorem at concrete snapshots with durations
0 and 120000. -/
theorem C6_progress_percent_unguarded_witness :
    ({ artist := "x", track_name := "y", album := "z", album_art_url := "w",
       album_art_img := none, progress_ms := 5, duration_ms := 0,
       track_number := 2, total_tracks := 9 } : NowPlayingState).duration_ms = 0 ∧
    ({ artist := "x", track_name := "y", album := "z", album_art_url := "w",
       album_art_img := none, progress_ms := 30000, duration_ms := 120000,
       track_number := 2, total_tracks := 9 } : NowPlayingState).duration_ms ≠ 0 ∧
    (({ artist := "x", track_name := "y", album := "z", album_art_url := "w",
        album_art_img := none, progress_ms := 5, duration_ms := 0,
        track_number := 2, total_tracks := 9 } : NowPlayingState).progress_percent = none ∧
     build_scene (fun _ => 16) {} (480, 320)
       { artist := "x", track_name := "y", album := "z", album_art_url := "w",
         album_art_img := none, progress_ms := 5, duration_ms := 0,
         track_number := 2, total_tracks := 9 } = none ∧
     ({ artist := "x", track_name := "y", album := "z", album_art_url := "w",
        album_art_img := none, progress_ms := 30000, duration_ms := 120000,
        track_number := 2, total_tracks := 9 } : NowPlayingState).progress_percent =
       some ((30000 : ℚ) / (120000 : ℚ) * 100) ∧
     (∀ r : NowPlayingState, r.progress_ms = 30000 → r.duration_ms = 120000 →
       r.progress_percent = some 25)) := by
  refine ⟨rfl, by decide, ?_⟩
  exact C6_progress_percent_unguarded (fun _ => 16) {} (480, 320) _ _ rfl (by decide)

/-! ## Claim C4 -/

/-- A value just inserted into the cache is found by the next lookup. -/
theorem lruLookup_insert (c : Lru) (url : String) (v : ℕ) :
    lruLookup (lruInsert c url v) url = some v := by
  unfold lruLookup lruInsert
  rw [show (32 : ℕ) = 31 + 1 from rfl, List.take_succ_cons]
  rw [List.find?_cons_of_pos _ (by simp)]
  rfl

/-- The cache never holds more than 32 entries after an insertion. -/
theorem lruInsert_length (c : Lru) (url : String) (v : ℕ) :
    (lruInsert c url v).length ≤ 32 :=
  List.length_take_le 32 _

/-- C4 counterexample: with a network on which every fetch for "u" fails,
two consecutive `download_image` requests for "u" from an empty cache each
issue a network fetch (two fetches in total, not one): `functools.lru_cache`
does not cache calls that raise, so the failed fetch is retried. -/
theorem C4_failed_fetch_refetched :
    (download_image (fun _ => none) [] "u").2.2 +
      (download_image (fun _ => none)
        (download_image (fun _ => none) [] "u").2.1 "u").2.2 = 2 := rfl

/-- C4 (amended): requesting the album-art image for the same URL twice
issues exactly one network fetch provided the first fetch succeeds (the
result is served thereafter from the LRU cache, whose size stays within
the 32-entry bound); a failed fetch is not cached, and the snapshot build
absorbs the failure: the snapshot is returned with its image field absent
(the condition is logged), never propagated to the caller. -/
theorem C4_image_cache (net : String → Option ℕ) (cache : Lru) (url : String)
    (v : ℕ) (resp : ApiResponse)
    (hmiss : lruLookup cache url = none) (hv : net url = some v)
    (hmiss2 : lruLookup cache resp.images0_url = none)
    (hfail : net resp.images0_url = none) :
    (download_image net cache url).2.2 = 1 ∧
    (download_image net cache url).1 = some v ∧
    (download_image net (download_image net cache url).2.1 url).2.2 = 0 ∧
    (download_image net (download_image net cache url).2.1 url).1 = some v ∧
    (download_image net cache url).2.1.length ≤ 32 ∧
    (NowPlayingState.from_api_response net cache resp).1.album_art_img = none ∧
    (NowPlayingState.from_api_response net cache resp).1.album_art_url =
      resp.images0_url := by
  have h1 : download_image net cache url = (some v, lruInsert cache url v, 1) := by
    unfold download_image
    rw [hmiss, hv]
  have h2 : download_image net (lruInsert cache url v) url =
      (some v, lruTouch (lruInsert cache url v) url, 0) := by
    unfold download_image
    rw [lruLookup_insert]
  refine ⟨by rw [h1], by rw [h1], ?_, ?_, ?_, ?_, rfl⟩
  · rw [h1]
    dsimp only
    rw [h2]
  · rw [h1]
    dsimp only
    rw [h2]
  · rw [h1]
    exact lruInsert_length cache url v
  · simp only [NowPlayingState.from_api_response, download_image, hmiss2, hfail]

/-- Witness for C4's amended theorem: a network where "art" succeeds with
image 7 and the response's art URL "bad" fails, starting from the empty
cache. -/
theorem C4_image_cache_witness :
    lruLookup [] "art" = none ∧
    (fun u => if u = "art" then some 7 else none) "art" = some 7 ∧
    lruLookup []
      ({ artists0_name := "ar", item_name := "tr", album_name := "al",
         images0_url := "bad", progress_ms := 1, duration_ms := 2,
         track_number := 3, total_tracks := 4 } : ApiResponse).images0_url = none ∧
    (fun u => if u = "art" then some 7 else none)
      ({ artists0_name := "ar", item_name := "tr", album_name := "al",
         images0_url := "bad", progress_ms := 1, duration_ms := 2,
         track_number := 3, total_tracks := 4 } : ApiResponse).images0_url = none ∧
    ((download_image (fun u => if u = "art" then some 7 else none) [] "art").2.2 = 1 ∧
     (download_image (fun u => if u = "art" then some 7 else none) [] "art").1 = some 7 ∧
     (download_image (fun u => if u = "art" then some 7 else none)
       (download_image (fun u => if u = "art" then some 7 else none) [] "art").2.1
       "art").2.2 = 0 ∧
     (download_image (fun u => if u = "art" then some 7 else none)
       (download_image (fun u => if u = "art" then some 7 else none) [] "art").2.1
       "art").1 = some 7 ∧
     (download_image (fun u => if u = "art" then some 7 else none) [] "art").2.1.length ≤ 32 ∧
     (NowPlayingState.from_api_response (fun u => if u = "art" then some 7 else none) []
       { artists0_name := "ar", item_name := "tr", album_name := "al",
         images0_url := "bad", progress_ms := 1, duration_ms := 2,
         track_number := 3, total_tracks := 4 }).1.album_art_img = none ∧
     (NowPlayingState.from_api_response (fun u => if u = "art" then some 7 else none) []
       { artists0_name := "ar", item_name := "tr", album_name := "al",
         images0_url := "bad", progress_ms := 1, duration_ms := 2,
         track_number := 3, total_tracks := 4 }).1.album_art_url =
       ({ artists0_name := "ar", item_name := "tr", album_name := "al",
          images0_url := "bad", progress_ms := 1, duration_ms := 2,
          track_number := 3, total_tracks := 4 } : ApiResponse).images0_url) := by
  refine ⟨rfl, rfl, rfl, rfl, ?_⟩
  exact C4_image_cache (fun u => if u = "art" then some 7 else none) [] "art" 7
    { artists0_name := "ar", item_name := "tr", album_name := "al",
      images0_url := "bad", progress_ms := 1, duration_ms := 2,
      track_number := 3, total_tracks := 4 }
    rfl rfl rfl rfl

/-! ## Claim C7 -/

/-- Closed form of `build_scene` for a snapshot with nonzero duration: the
children in insertion order, with the artist label at
`(265, album_height + 20)` as the second-to-last child. -/
theorem build_scene_eq (th : TextW → ℕ) (cfg : Config) (sz : ℕ × ℕ)
    (st : NowPlayingState) (h : st.duration_ms ≠ 0) :
    build_scene th cfg sz st = some
      { root := Node.rect sz (0, 0, 0),
        children :=
          (match st.album_art_img with
           | some imageId => [((0, 0), Node.img (255, 255) imageId st.album_art_url)]
           | none => []) ++
          [((0, 270), Node.progressBar (480, 5)
              ((st.progress_ms : ℚ) / (st.duration_ms : ℚ) * 100) (64, 64, 64)),
           ((5, 290), Node.text
              { text := ms_to_min_secs st.progress_ms, color := (200, 200, 200),
                font := cfg.font, font_size := 20 }),
           ((475, 290), Node.text
              { text := ms_to_min_secs st.duration_ms, color := (200, 200, 200),
                font := cfg.font, font_size := 20, anchor := some "ra" }),
           ((240, 290), Node.text
              { text := toString st.track_number ++ " / " ++ toString st.total_tracks,
                color := (200, 200, 200), font := cfg.font, font_size := 20,
                anchor := some "ma" }),
           ((265, 2), Node.text (albumTextW cfg st)),
           ((265, (th (albumTextW cfg st) : ℤ) + 20), Node.text (artistTextW cfg st)),
           ((265, 255), Node.text
              { text := st.track_name, color := (255, 255, 255), font := cfg.font,
                font_size := 20, max_width := some 215, anchor := some "ld" })] } := by
  cases himg : st.album_art_img <;>
    simp [build_scene, NowPlayingState.progress_percent, h, himg, Scene.add,
      albumTextW, artistTextW]

/-- C7: the scene builder is a pure deterministic function — identical
`(th, config, size, snapshot)` inputs produce identical scenes — and the
artist label's vertical position is the album label's rendered height plus
the fixed offset 20, so replacing the album text (hence its wrapped
height) shifts the artist's vertical position by exactly the height
delta. -/
theorem C7_build_scene_layout (th : TextW → ℕ) (cfg : Config) (sz : ℕ × ℕ)
    (st : NowPlayingState) (a₂ : String) (h : st.duration_ms ≠ 0) :
    build_scene th cfg sz st = build_scene th cfg sz st ∧
    (∃ sc, build_scene th cfg sz st = some sc ∧
      sc.children.reverse.get? 1 =
        some ((265, (th (albumTextW cfg st) : ℤ) + 20), Node.text (artistTextW cfg st)) ∧
      artistY sc = (th (albumTextW cfg st) : ℤ) + 20) ∧
    (∀ sc sc₂, build_scene th cfg sz st = some sc →
      build_scene th cfg sz { st with album := a₂ } = some sc₂ →
      artistY sc - artistY sc₂ =
        (th (albumTextW cfg st) : ℤ) - (th (albumTextW cfg { st with album := a₂ }) : ℤ)) := by
  have h₂ : ({ st with album := a₂ } : NowPlayingState).duration_ms ≠ 0 := h
  refine ⟨rfl, ?_, ?_⟩
  · refine ⟨_, build_scene_eq th cfg sz st h, ?_, ?_⟩ <;>
      cases st.album_art_img <;> rfl
  · intro sc sc₂ hsc hsc₂
    rw [build_scene_eq th cfg sz st h] at hsc
    rw [build_scene_eq th cfg sz _ h₂] at hsc₂
    have e1 : artistY sc = (th (albumTextW cfg st) : ℤ) + 20 := by
      rw [← Option.some_inj.mp hsc]
      cases st.album_art_img <;> rfl
    have e2 : artistY sc₂ = (th (albumTextW cfg { st with album := a₂ }) : ℤ) + 20 := by
      rw [← Option.some_inj.mp hsc₂]
      cases st.album_art_img <;> rfl
    rw [e1, e2]
    ring

/-- Witness for C7 at a concrete height oracle (the album line wraps to
height 35), config, size and snapshot. -/
theorem C7_build_scene_layout_witness :
    ({ artist := "ar", track_name := "tr", album := "al", album_art_url := "u",
       album_art_img := some 3, progress_ms := 30000, duration_ms := 120000,
       track_number := 1, total_tracks := 12 } : NowPlayingState).duration_ms ≠ 0 ∧
    (build_scene (fun t => if t.font_size = 16 then 35 else 24) {} (480, 320)
       { artist := "ar", track_name := "tr", album := "al", album_art_url := "u",
         album_art_img := some 3, progress_ms := 30000, duration_ms := 120000,
         track_number := 1, total_tracks := 12 } =
     build_scene (fun t => if t.font_size = 16 then 35 else 24) {} (480, 320)
       { artist := "ar", track_name := "tr", album := "al", album_art_url := "u",
         album_art_img := some 3, progress_ms := 30000, duration_ms := 120000,
         track_number := 1, total_tracks := 12 } ∧
     (∃ sc, build_scene (fun t => if t.font_size = 16 then 35 else 24) {} (480, 320)
         { artist := "ar", track_name := "tr", album := "al", album_art_url := "u",
           album_art_img := some 3, progress_ms := 30000, duration_ms := 120000,
           track_number := 1, total_tracks := 12 } = some sc ∧
       sc.children.reverse.get? 1 =
         some ((265, ((fun t : TextW => if t.font_size = 16 then 35 else 24)
           (albumTextW {}
             { artist := "ar", track_name := "tr", album := "al", album_art_url := "u",
               album_art_img := some 3, progress_ms := 30000, duration_ms := 120000,
               track_number := 1, total_tracks := 12 }) : ℤ) + 20),
           Node.text (artistTextW {}
             { artist := "ar", track_name := "tr", album := "al", album_art_url := "u",
               album_art_img := some 3, progress_ms := 30000, duration_ms := 120000,
               track_number := 1, total_tracks := 12 })) ∧
       artistY sc = ((fun t : TextW => if t.font_size = 16 then 35 else 24)
         (albumTextW {}
           { artist := "ar", track_name := "tr", album := "al", album_art_url := "u",
             album_art_img := some 3, progress_ms := 30000, duration_ms := 120000,
             track_number := 1, total_tracks := 12 }) : ℤ) + 20) ∧
     (∀ sc sc₂,
       build_scene (fun t => if t.font_size = 16 then 35 else 24) {} (480, 320)
         { artist := "ar", track_name := "tr", album := "al", album_art_url := "u",
           album_art_img := some 3, progress_ms := 30000, duration_ms := 120000,
           track_number := 1, total_tracks := 12 } = some sc →
       build_scene (fun t => if t.font_size = 16 then 35 else 24) {} (480, 320)
         { ({ artist := "ar", track_name := "tr", album := "al", album_art_url := "u",
              album_art_img := some 3, progress_ms := 30000, duration_ms := 120000,
              track_number := 1, total_tracks := 12 } : NowPlayingState) with
           album := "a longer album title" } = some sc₂ →
       artistY sc - artistY sc₂ =
         ((fun t : TextW => if t.font_size = 16 then 35 else 24)
           (albumTextW {}
             { artist := "ar", track_name := "tr", album := "al", album_art_url := "u",
               album_art_img := some 3, progress_ms := 30000, duration_ms := 120000,
               track_number := 1, total_tracks := 12 }) : ℤ) -
         ((fun t : TextW => if t.font_size = 16 then 35 else 24)
           (albumTextW {}
             { ({ artist := "ar", track_name := "tr", album := "al", album_art_url := "u",
                  album_art_img := some 3, progress_ms := 30000, duration_ms := 120000,
                  track_number := 1, total_tracks := 12 } : NowPlayingState) with
               album := "a longer album title" }) : ℤ))) := by
  refine ⟨by decide, ?_⟩
  exact C7_build_scene_layout (fun t => if t.font_size = 16 then 35 else 24) {} (480, 320)
    { artist := "ar", track_name := "tr", album := "al", album_art_url := "u",
      album_art_img := some 3, progress_ms := 30000, duration_ms := 120000,
      track_number := 1, total_tracks := 12 } "a longer album title" (by decide)

/-! ## Claim C3 -/

/-- The `on()` method always leaves the screen powered on. -/
theorem screen_on_is_on (s : Screen) : ((s.on).1).is_on = true := by
  rcases s with ⟨b, p⟩
  cases b <;> rfl

/-- C3: an iteration whose playback query returns no active session makes
exactly one `off()` call and zero `update()` calls, and its last action is
the 5-second sleep, while every iteration begins with the playback query;
an iteration with an active session (and well-formed, nonzero-duration
payload) calls `on()` — which is idempotent, leaving the screen on — and
then paints exactly once. -/
theorem C3_idle_active_cycle (th : TextW → ℕ) (cfg : Config)
    (net : String → Option ℕ) (sz : ℕ × ℕ) (screen : Screen) (cache : Lru)
    (resp : ApiResponse) (h : resp.duration_ms ≠ 0) :
    tickBody th cfg net sz screen cache TickOutcome.idle =
      { screen := (screen.off).1, cache := cache,
        events := [Event.query, Event.offCall, Event.sleepSec 5], raised := none } ∧
    (tickBody th cfg net sz screen cache TickOutcome.idle).events.count Event.offCall = 1 ∧
    (tickBody th cfg net sz screen cache TickOutcome.idle).events.count Event.updateCall = 0 ∧
    (tickBody th cfg net sz screen cache TickOutcome.idle).events.getLast? =
      some (Event.sleepSec 5) ∧
    (∀ o : TickOutcome,
      (tickBody th cfg net sz screen cache o).events.head? = some Event.query) ∧
    (∃ scene,
      build_scene th cfg sz (NowPlayingState.from_api_response net cache resp).1 =
        some scene ∧
      tickBody th cfg net sz screen cache (TickOutcome.playing resp) =
        { screen := (((screen.on).1).update scene).1,
          cache := (NowPlayingState.from_api_response net cache resp).2,
          events := [Event.query, Event.onCall, Event.updateCall], raised := none } ∧
      (tickBody th cfg net sz screen cache
        (TickOutcome.playing resp)).events.count Event.updateCall = 1 ∧
      (tickBody th cfg net sz screen cache
        (TickOutcome.playing resp)).events.count Event.offCall = 0 ∧
      (((screen.on).1).is_on = true)) := by
  have hb := build_scene_eq th cfg sz
    (NowPlayingState.from_api_response net cache resp).1 h
  refine ⟨rfl, rfl, rfl, rfl, ?_, ?_⟩
  · intro o
    cases o with
    | idle => rfl
    | queryRaise e => rfl
    | playing r =>
      cases hr : build_scene th cfg sz (NowPlayingState.from_api_response net cache r).1 <;>
        simp [tickBody, hr]
    | paintRaise r e =>
      cases hr : build_scene th cfg sz (NowPlayingState.from_api_response net cache r).1 <;>
        simp [tickBody, hr]
  · refine ⟨_, hb, ?_, ?_, ?_, screen_on_is_on screen⟩ <;>
      simp [tickBody, hb, List.count]

/-- Witness for C3 at the sample oracles and response, a fresh screen and
an empty cache. -/
theorem C3_idle_active_cycle_witness :
    sampleResp.duration_ms ≠ 0 ∧
    (tickBody sampleTh {} sampleNet (480, 320) Screen.init [] TickOutcome.idle =
      { screen := (Screen.init.off).1, cache := [],
        events := [Event.query, Event.offCall, Event.sleepSec 5], raised := none } ∧
    (tickBody sampleTh {} sampleNet (480, 320) Screen.init [] TickOutcome.idle).events.count
      Event.offCall = 1 ∧
    (tickBody sampleTh {} sampleNet (480, 320) Screen.init [] TickOutcome.idle).events.count
      Event.updateCall = 0 ∧
    (tickBody sampleTh {} sampleNet (480, 320) Screen.init [] TickOutcome.idle).events.getLast? =
      some (Event.sleepSec 5) ∧
    (∀ o : TickOutcome,
      (tickBody sampleTh {} sampleNet (480, 320) Screen.init [] o).events.head? =
        some Event.query) ∧
    (∃ scene,
      build_scene sampleTh {} (480, 320)
        (NowPlayingState.from_api_response sampleNet [] sampleResp).1 = some scene ∧
      tickBody sampleTh {} sampleNet (480, 320) Screen.init []
        (TickOutcome.playing sampleResp) =
        { screen := (((Screen.init.on).1).update scene).1,
          cache := (NowPlayingState.from_api_response sampleNet [] sampleResp).2,
          events := [Event.query, Event.onCall, Event.updateCall], raised := none } ∧
      (tickBody sampleTh {} sampleNet (480, 320) Screen.init []
        (TickOutcome.playing sampleResp)).events.count Event.updateCall = 1 ∧
      (tickBody sampleTh {} sampleNet (480, 320) Screen.init []
        (TickOutcome.playing sampleResp)).events.count Event.offCall = 0 ∧
      (((Screen.init.on).1).is_on = true))) := by
  refine ⟨by decide, ?_⟩
  exact C3_idle_active_cycle sampleTh {} sampleNet (480, 320) Screen.init []
    sampleResp (by decide)

/-! ## Claim C2 -/

/-- Once the `running` flag is cleared, the outer loop performs nothing
more regardless of the remaining schedule. -/
theorem runAttempts_not_running (th : TextW → ℕ) (cfg : Config)
    (net : String → Option ℕ) (sz : ℕ × ℕ) (scr : Option Screen) (cache : Lru) :
    ∀ atts, runAttempts th cfg net sz false scr cache atts =
      { events := [], screen := scr, running := false }
  | [] => rfl
  | _ :: _ => rfl

/-- Unfolding of one attempt whose first tick's query raises `e` with no
signals: the trace is the construction, the query, the error log, the
retry log and the 5-second backoff, followed by the recursion on the rest
with a freshly constructed screen. -/
theorem runAttempts_queryFail (th : TextW → ℕ) (cfg : Config)
    (net : String → Option ℕ) (sz : ℕ × ℕ) (scr : Option Screen) (cache : Lru)
    (e : String) (rest : List Attempt) :
    runAttempts th cfg net sz true scr cache (queryFailAttempt e :: rest) =
      { runAttempts th cfg net sz true (some Screen.init) cache rest with
        events := [Event.construct, Event.query, Event.logError e, Event.logRetry,
          Event.sleepSec 5] ++
          (runAttempts th cfg net sz true (some Screen.init) cache rest).events } := by
  simp [runAttempts, runTicks, tickBody, queryFailAttempt]

/-- Counting the n-fold repetition of a query-failing attempt: each round
contributes exactly one construction and one backoff sleep. -/
theorem runAttempts_queryFail_count (th : TextW → ℕ) (cfg : Config)
    (net : String → Option ℕ) (sz : ℕ × ℕ) (e : String) :
    ∀ (n : ℕ) (scr : Option Screen) (cache : Lru),
      ((runAttempts th cfg net sz true scr cache
        (List.replicate n (queryFailAttempt e))).events.count Event.construct = n ∧
       (runAttempts th cfg net sz true scr cache
        (List.replicate n (queryFailAttempt e))).events.count (Event.sleepSec 5) = n) := by
  intro n
  induction n with
  | zero => intro scr cache; exact ⟨rfl, rfl⟩
  | succ n ih =>
    intro scr cache
    rw [List.replicate_succ, runAttempts_queryFail]
    have h := ih (some Screen.init) cache
    have hc1 : List.count Event.construct
        [Event.construct, Event.query, Event.logError e, Event.logRetry,
         Event.sleepSec 5] = 1 := rfl
    have hc2 : List.count (Event.sleepSec 5)
        [Event.construct, Event.query, Event.logError e, Event.logRetry,
         Event.sleepSec 5] = 1 := rfl
    constructor
    · simp only [List.count_append, h.1, hc1]
      omega
    · simp only [List.count_append, h.2, hc2]
      omega

/-- C2: every unhandled exception in the loop body — at display
construction, at the playback query, inside the snapshot/scene stage
(e.g. the `ZeroDivisionError` of a zero-duration payload), or at paint —
leads to the same handling regardless of the error value: the error is
logged, the fixed 5-second backoff is slept (the flag still being set),
and the loop body restarts with construction of a fresh `Screen`; every
attempt entered with the flag set starts with that construction; the
retry repeats without bound while errors persist; and the loop stops as
soon as the shutdown flag is cleared. -/
theorem C2_retry_policy (th : TextW → ℕ) (cfg : Config)
    (net : String → Option ℕ) (sz : ℕ × ℕ) (cache : Lru) (scr : Option Screen)
    (e : String) (resp resp₀ : ApiResponse) (a : Attempt)
    (rest rest' atts : List Attempt) (n : ℕ)
    (h : resp.duration_ms ≠ 0) (h₀ : resp₀.duration_ms = 0) :
    (runAttempts th cfg net sz true scr cache (queryFailAttempt e :: rest)).events =
      [Event.construct, Event.query, Event.logError e, Event.logRetry,
       Event.sleepSec 5] ++
      (runAttempts th cfg net sz true (some Screen.init) cache rest).events ∧
    (runAttempts th cfg net sz true scr cache
      ({ ctorFail := some e, ticks := [] } :: rest)).events =
      [Event.construct, Event.logError e, Event.logRetry, Event.sleepSec 5] ++
      (runAttempts th cfg net sz true scr cache rest).events ∧
    (∃ scr' cache',
      (runAttempts th cfg net sz true scr cache
        ({ ctorFail := none,
           ticks := [{ sigBefore := false, out := TickOutcome.paintRaise resp e,
                       sigDuring := false }] } :: rest)).events =
        [Event.construct, Event.query, Event.onCall, Event.updateCall,
         Event.logError e, Event.logRetry, Event.sleepSec 5] ++
        (runAttempts th cfg net sz true (some scr') cache' rest).events) ∧
    (∃ scr' cache',
      (runAttempts th cfg net sz true scr cache
        ({ ctorFail := none,
           ticks := [{ sigBefore := false, out := TickOutcome.playing resp₀,
                       sigDuring := false }] } :: rest)).events =
        [Event.construct, Event.query, Event.onCall,
         Event.logError "ZeroDivisionError", Event.logRetry, Event.sleepSec 5] ++
        (runAttempts th cfg net sz true (some scr') cache' rest).events) ∧
    (runAttempts th cfg net sz true scr cache (a :: rest')).events.head? =
      some Event.construct ∧
    (runAttempts th cfg net sz true scr cache
      (List.replicate n (queryFailAttempt e))).events.count Event.construct = n ∧
    (runAttempts th cfg net sz true scr cache
      (List.replicate n (queryFailAttempt e))).events.count (Event.sleepSec 5) = n ∧
    runAttempts th cfg net sz false scr cache atts =
      { events := [], screen := scr, running := false } := by
  have hb := build_scene_eq th cfg sz
    (NowPlayingState.from_api_response net cache resp).1 h
  have hz : build_scene th cfg sz
      (NowPlayingState.from_api_response net cache resp₀).1 = none :=
    build_scene_zero_duration th cfg sz _ h₀
  refine ⟨?_, ?_, ?_, ?_, ?_, (runAttempts_queryFail_count th cfg net sz e n scr cache).1,
    (runAttempts_queryFail_count th cfg net sz e n scr cache).2,
    runAttempts_not_running th cfg net sz scr cache atts⟩
  · rw [runAttempts_queryFail]
  · simp [runAttempts]
  · obtain ⟨sc, hsc⟩ : ∃ sc, build_scene th cfg sz
        (NowPlayingState.from_api_response net cache resp).1 = some sc := ⟨_, hb⟩
    refine ⟨(((Screen.init.on).1).update sc).1,
      (NowPlayingState.from_api_response net cache resp).2, ?_⟩
    simp [runAttempts, runTicks, tickBody, hsc]
  · refine ⟨(Screen.init.on).1,
      (NowPlayingState.from_api_response net cache resp₀).2, ?_⟩
    simp [runAttempts, runTicks, tickBody, hz]
  · rcases a with ⟨cf, ticks⟩
    cases cf with
    | some e' => rfl
    | none =>
      cases hr : (runTicks th cfg net sz true Screen.init cache ticks).raised <;>
        simp [runAttempts, hr]

/-- Witness for C2 at the sample oracles, responses and error "boom", with
two repetitions for the unbounded-retry count. -/
theorem C2_retry_policy_witness :
    sampleResp.duration_ms ≠ 0 ∧ sampleRespZero.duration_ms = 0 ∧
    ((runAttempts sampleTh {} sampleNet (480, 320) true none []
        (queryFailAttempt "boom" :: [])).events =
      [Event.construct, Event.query, Event.logError "boom", Event.logRetry,
       Event.sleepSec 5] ++
      (runAttempts sampleTh {} sampleNet (480, 320) true (some Screen.init) []
        []).events ∧
    (runAttempts sampleTh {} sampleNet (480, 320) true none []
      ({ ctorFail := some "boom", ticks := [] } :: [])).events =
      [Event.construct, Event.logError "boom", Event.logRetry, Event.sleepSec 5] ++
      (runAttempts sampleTh {} sampleNet (480, 320) true none [] []).events ∧
    (∃ scr' cache',
      (runAttempts sampleTh {} sampleNet (480, 320) true none []
        ({ ctorFail := none,
           ticks := [{ sigBefore := false,
                       out := TickOutcome.paintRaise sampleResp "boom",
                       sigDuring := false }] } :: [])).events =
        [Event.construct, Event.query, Event.onCall, Event.updateCall,
         Event.logError "boom", Event.logRetry, Event.sleepSec 5] ++
        (runAttempts sampleTh {} sampleNet (480, 320) true (some scr') cache' []).events) ∧
    (∃ scr' cache',
      (runAttempts sampleTh {} sampleNet (480, 320) true none []
        ({ ctorFail := none,
           ticks := [{ sigBefore := false,
                       out := TickOutcome.playing sampleRespZero,
                       sigDuring := false }] } :: [])).events =
        [Event.construct, Event.query, Event.onCall,
         Event.logError "ZeroDivisionError", Event.logRetry, Event.sleepSec 5] ++
        (runAttempts sampleTh {} sampleNet (480, 320) true (some scr') cache' []).events) ∧
    (runAttempts sampleTh {} sampleNet (480, 320) true none []
      (queryFailAttempt "boom" :: [])).events.head? = some Event.construct ∧
    (runAttempts sampleTh {} sampleNet (480, 320) true none []
      (List.replicate 2 (queryFailAttempt "boom"))).events.count Event.construct = 2 ∧
    (runAttempts sampleTh {} sampleNet (480, 320) true none []
      (List.replicate 2 (queryFailAttempt "boom"))).events.count (Event.sleepSec 5) = 2 ∧
    runAttempts sampleTh {} sampleNet (480, 320) false none [] [] =
      { events := [], screen := none, running := false }) := by
  refine ⟨by decide, by decide, ?_⟩
  exact C2_retry_policy sampleTh {} sampleNet (480, 320) [] none "boom"
    sampleResp sampleRespZero (queryFailAttempt "boom") [] [] [] 2
    (by decide) (by decide)

/-! ## Claim C10 -/

/-- C10: when the shutdown flag has been cleared by a signal at the moment
an unhandled error is caught, the run loop logs the error and the retry
notice but skips the 5-second backoff sleep entirely and proceeds directly
to cleanup (`screen.off()`) and exit, regardless of the remaining
schedule; by contrast the identical schedule without the shutdown signal
does sleep the backoff. -/
theorem C10_shutdown_skips_backoff (th : TextW → ℕ) (cfg : Config)
    (net : String → Option ℕ) (sz : ℕ × ℕ) (cache : Lru) (e : String)
    (rest : List Attempt) :
    run th cfg net sz cache
      ({ ctorFail := none,
         ticks := [{ sigBefore := false, out := TickOutcome.queryRaise e,
                     sigDuring := true }] } :: rest) =
      [Event.construct, Event.query, Event.logError e, Event.logRetry,
       Event.offCall, Event.logShutdown] ∧
    run th cfg net sz cache
      [{ ctorFail := none,
         ticks := [{ sigBefore := false, out := TickOutcome.queryRaise e,
                     sigDuring := false }] }] =
      [Event.construct, Event.query, Event.logError e, Event.logRetry,
       Event.sleepSec 5, Event.offCall, Event.logShutdown] := by
  constructor
  · simp [run, runAttempts, runTicks, tickBody,
      runAttempts_not_running th cfg net sz (some Screen.init) cache rest]
  · rfl

end Spotiscreen
